import Mathlib

/-!
Shallow embedding of `src/app.py` (MinerU step-wise PDF processing service).

The source is a Flask app holding a global dict `processing_results` that maps
a caller-supplied `job_id` to a job record, with three operations:

* `process_pdf_start`   — open the document, classify OCR vs text, record page
  count, create `output/{job_id}/images`, register the job record;
* `process_pdf_with`    — serve one page, consulting the per-job page cache and
  calling the analysis engine on a miss;
* `process_pdf_final_result` — assemble the report from the cache, release
  engine memory, delete the job record and its output directory.

The external `magic_pdf` engine (doc_analyze, classify, clean_memory, file
reading) is out of scope per the spec and is modelled by an abstract `Engine`
record of (possibly failing) functions; the parsed dataset `ds` is modelled by
the PDF bytes it was built from.  Real time (`time.time()`) is modelled by a
logical clock in the system state that advances by one on each engine analysis
call.  The filesystem directory tree `output/{job_id}` is modelled by the list
of existing job output roots.  Python exceptions are modelled by `Except`:
an operation returns its result (or the propagated exception) together with
the state as mutated up to the point of return or raise.
-/

/-- The page result dict built at app.py lines 120-125:
`{"pageIndex": page, "content": page_middle_json, "imgDir": ..., "processingTime": ...}`. -/
structure PageData where
  pageIndex : Int
  content : String
  imgDir : String
  processingTime : Nat
deriving DecidableEq, Repr

/-- The job record stored in `processing_results[job_id]` at app.py lines 67-76.
`ds` is the `PymuDocDataset`, modelled by the bytes it was constructed from. -/
structure JobData where
  ds : String
  is_ocr : Bool
  output_image_dir : String
  output_abs_dir : String
  pdf_file_name : String
  start_time : Nat
  pages : List PageData
  page_count : Nat
deriving DecidableEq, Repr

/-- The opaque external document-analysis engine (`magic_pdf`), out of scope per
the spec.  `read` models `FileBasedDataReader.read` (raises on unreadable
source), `pageCountOf` models `len(dataset)`, `classifyOcr` models
`ds.classify() == SupportedPdfParseMethod.OCR`, `analyze` models the
`doc_analyze` + pipe step of `process_single_page` restricted to one page
(argument order: dataset bytes, page index, is_ocr), returning the page's
middle json or raising, and `cleanMemory` models `clean_memory(get_device())`. -/
structure Engine where
  read : String → Except String String
  pageCountOf : String → Nat
  classifyOcr : String → Bool
  analyze : String → Int → Bool → Except String String
  cleanMemory : Except String Unit

/-- Global mutable state of the app: the `processing_results` dict (as an
association list in dict insertion order), the set of existing
`output/{job_id}` directory trees (each tree keyed by its root), the logical
clock read by `time.time()`, and a count of engine analysis invocations used
to state at-most-once-computation properties. -/
structure SysState where
  processing_results : List (String × JobData)
  dirs : List String
  clock : Nat
  engineCalls : Nat
deriving DecidableEq, Repr

deriving instance DecidableEq for Except

/-- Python dict lookup `d[k]` / `k in d` on the association-list model. -/
def lookupJob : List (String × JobData) → String → Option JobData
  | [], _ => none
  | (k, v) :: rest, k2 => if k = k2 then some v else lookupJob rest k2

/-- Python dict assignment `d[k] = v`: replace in place if the key exists
(preserving dict order), otherwise append. -/
def insertJob : List (String × JobData) → String → JobData → List (String × JobData)
  | [], k, v => [(k, v)]
  | (k1, v1) :: rest, k, v =>
    if k1 = k then (k, v) :: rest else (k1, v1) :: insertJob rest k v

/-- Python dict deletion `del d[k]`. -/
def eraseJob (l : List (String × JobData)) (k : String) : List (String × JobData) :=
  l.filter (fun kv => kv.1 != k)

/-- `os.path.join` for the two-component joins used in app.py. -/
def joinPath (a b : String) : String := a ++ "/" ++ b

/-- Scan of a character list keeping the suffix after the last slash. -/
def lastComponent : List Char → List Char → List Char
  | [], acc => acc.reverse
  | c :: cs, acc => if c = '/' then lastComponent cs [] else lastComponent cs (c :: acc)

/-- `os.path.basename`: the last slash-separated component. -/
def basename (p : String) : String := String.mk (lastComponent p.data [])

/-- `os.path.abspath` on a relative path: prefix the (fixed) working directory. -/
def abspath (p : String) : String := "/cwd/" ++ p

/-- Successful return value of `process_pdf_start` (app.py lines 78-82). -/
structure StartOk where
  status : String
  pageCount : Nat
  pdfName : String
deriving DecidableEq, Repr

/-- Return value of `process_pdf_with`: the explicit 400 returns at lines
96-97 (unknown job) and 101-102 (page index out of range), or the page dict. -/
inductive PageResp where
  | jobNotFound
  | rangeError (pageCount : Nat)
  | ok (p : PageData)
deriving DecidableEq, Repr

/-- Successful return value of `process_pdf_final_result` (app.py lines 157-162). -/
structure FinalOk where
  status : String
  processing_time : Nat
  pdf_name : String
  pages : List PageData
deriving DecidableEq, Repr

/-- Return value of `process_pdf_final_result`: the explicit 400 return at
lines 145-146, or the final report. -/
inductive FinalResp where
  | jobNotFound
  | ok (r : FinalOk)
deriving DecidableEq, Repr

/-- app.py lines 33-82, `process_pdf_start(pdf_file_path, job_id)`.
Note the source performs no duplicate-jobId check: the dict assignment at
line 67 overwrites any existing record.  `os.makedirs(..., exist_ok=True)`
runs before the file read, so a failed read leaves the directory created.
The `.error` case models the Python exception propagating to the caller. -/
def process_pdf_start (eng : Engine) (pdf_file_path job_id : String) (s : SysState) :
    Except String StartOk × SysState :=
  let start_time := s.clock
  let pdf_file_name := basename pdf_file_path
  let output_image_dir := joinPath (joinPath "output" job_id) "images"
  let image_root := joinPath "output" job_id
  let s1 := if image_root ∈ s.dirs then s else { s with dirs := s.dirs ++ [image_root] }
  let output_abs_dir := abspath output_image_dir
  match eng.read pdf_file_path with
  | .error e => (.error e, s1)
  | .ok pdf_bytes =>
    let page_count := eng.pageCountOf pdf_bytes
    let is_ocr := eng.classifyOcr pdf_bytes
    let jd : JobData :=
      { ds := pdf_bytes, is_ocr := is_ocr, output_image_dir := output_image_dir,
        output_abs_dir := output_abs_dir, pdf_file_name := pdf_file_name,
        start_time := start_time, pages := [], page_count := page_count }
    let s2 := { s1 with processing_results := insertJob s1.processing_results job_id jd }
    (.ok { status := "success", pageCount := page_count, pdfName := pdf_file_name }, s2)

/-- app.py lines 84-132, `process_pdf_with(pdf_file_path, job_id, page)`.
The cache scan at lines 105-107 returns the first stored page dict whose
`pageIndex` equals `page`; on a miss the engine is invoked (advancing the
clock by one and counting one invocation), and on success the page dict is
appended to the job's `pages` list.  An engine exception propagates with the
global job store untouched. -/
def process_pdf_with (eng : Engine) (pdf_file_path job_id : String) (page : Int)
    (s : SysState) : Except String PageResp × SysState :=
  match lookupJob s.processing_results job_id with
  | none => (.ok .jobNotFound, s)
  | some job_data =>
    if page < 0 ∨ (job_data.page_count : Int) ≤ page then
      (.ok (.rangeError job_data.page_count), s)
    else
      match job_data.pages.find? (fun pp => pp.pageIndex == page) with
      | some cached => (.ok (.ok cached), s)
      | none =>
        let page_start_time := s.clock
        let s1 := { s with clock := s.clock + 1, engineCalls := s.engineCalls + 1 }
        match eng.analyze job_data.ds page job_data.is_ocr with
        | .error e => (.error e, s1)
        | .ok content =>
          let page_data : PageData :=
            { pageIndex := page, content := content, imgDir := job_data.output_abs_dir,
              processingTime := s1.clock - page_start_time }
          let new_job := { job_data with pages := job_data.pages ++ [page_data] }
          let s2 := { s1 with processing_results := insertJob s1.processing_results job_id new_job }
          (.ok (.ok page_data), s2)

/-- app.py lines 134-172, `process_pdf_final_result(pdf_file_path, job_id)`.
The source is straight-line code with no try/finally: `clean_memory` runs
first and, if it raises, the exception propagates with the job still
registered and the directory still present.  On success the report is built
from the cached `pages` list as-is, the job is deleted from the dict, and the
`output/{job_id}` tree is removed if it exists. -/
def process_pdf_final_result (eng : Engine) (pdf_file_path job_id : String)
    (s : SysState) : Except String FinalResp × SysState :=
  match lookupJob s.processing_results job_id with
  | none => (.ok .jobNotFound, s)
  | some job_data =>
    match eng.cleanMemory with
    | .error e => (.error e, s)
    | .ok _ =>
      let total_time := s.clock - job_data.start_time
      let result : FinalOk :=
        { status := "success", processing_time := total_time,
          pdf_name := job_data.pdf_file_name, pages := job_data.pages }
      let s1 := { s with processing_results := eraseJob s.processing_results job_id }
      let image_folder := joinPath "output" job_id
      let s2 := if image_folder ∈ s1.dirs
        then { s1 with dirs := s1.dirs.filter (fun d => d != image_folder) }
        else s1
      (.ok (.ok result), s2)

/-- JSON body of a POST /process-pdf-start request: each field either absent
or present with a string value. -/
structure StartRequest where
  fileAbsolutePath : Option String
  jobId : Option String
deriving DecidableEq, Repr

/-- HTTP outcome of a handler: a 200 JSON success body or an error status
with a message. -/
inductive HandlerOut where
  | success (r : StartOk)
  | failure (code : Nat) (msg : String)
deriving DecidableEq, Repr

/-- HTTP status code of a handler outcome. -/
def HandlerOut.code : HandlerOut → Nat
  | .success _ => 200
  | .failure c _ => c

/-- app.py lines 174-198, `handle_pdf_start`.  Only `fileAbsolutePath` is
checked for presence (Python falsiness: absent or empty string → 400); `jobId`
is read with `data.get` and never checked.  When `jobId` is absent, the
`None` value flows into `os.path.join("output", None, "images")` inside
`process_pdf_start`, which raises `TypeError` before any state mutation; the
handler's except-clause converts it — like any other exception — to a 500. -/
def handle_pdf_start (eng : Engine) (data : StartRequest) (s : SysState) :
    HandlerOut × SysState :=
  match data.fileAbsolutePath with
  | none => (.failure 400 "未提供檔案路徑", s)
  | some fp =>
    if fp = "" then (.failure 400 "未提供檔案路徑", s)
    else
      match data.jobId with
      | none => (.failure 500 "TypeError", s)
      | some jid =>
        match process_pdf_start eng fp jid s with
        | (.ok r, s2) => (.success r, s2)
        | (.error e, s2) => (.failure 500 e, s2)

/-- A concrete engine used to instantiate the theorems on executable inputs:
reading `/bad.pdf` fails, every other path yields three-page bytes; analysis
fails on the document read from `/fail.pdf` and succeeds elsewhere with a
content string determined by the dataset and the page index. -/
def testEngine : Engine where
  read p := if p = "/bad.pdf" then .error "read failed" else .ok ("bytes:" ++ p)
  pageCountOf _ := 3
  classifyOcr b := b == "bytes:/ocr.pdf"
  analyze b pg _ :=
    if b == "bytes:/fail.pdf" then .error "engine failure"
    else .ok ("content:" ++ b ++ ":" ++ (if pg = 0 then "0" else if pg = 1 then "1" else "2"))
  cleanMemory := .ok ()

/-- Variant of `testEngine` whose device-memory cleanup raises. -/
def cleanFailEngine : Engine := { testEngine with cleanMemory := .error "device cleanup failed" }

/-- Empty initial state: no jobs, no output directories. -/
def s0 : SysState := { processing_results := [], dirs := [], clock := 0, engineCalls := 0 }

/-- State after starting job `j1` from `/docs/x.pdf`. -/
def sStart : SysState := (process_pdf_start testEngine "/docs/x.pdf" "j1" s0).2

/-- State after additionally computing page 0 of job `j1`. -/
def sPage0 : SysState := (process_pdf_with testEngine "/docs/x.pdf" "j1" 0 sStart).2

/-- The page dict computed for page 0 of job `j1` in the concrete run. -/
def p0 : PageData :=
  { pageIndex := 0, content := "content:bytes:/docs/x.pdf:0",
    imgDir := "/cwd/output/j1/images", processingTime := 1 }

/-- The job record registered for `j1` right after `process_pdf_start`. -/
def jd1 : JobData :=
  { ds := "bytes:/docs/x.pdf", is_ocr := false, output_image_dir := "output/j1/images",
    output_abs_dir := "/cwd/output/j1/images", pdf_file_name := "x.pdf",
    start_time := 0, pages := [], page_count := 3 }

/-- The job record of `j1` after page 0 was computed and cached. -/
def jd1p : JobData := { jd1 with pages := [p0] }

/-- State after completing job `j1` from `sPage0`. -/
def sDone : SysState := (process_pdf_final_result testEngine "/docs/x.pdf" "j1" sPage0).2

/-- State after starting job `j2` from `/fail.pdf`, whose pages fail to analyze. -/
def sF : SysState := (process_pdf_start testEngine "/fail.pdf" "j2" s0).2

/-- The job record registered for `j2`. -/
def jdF : JobData :=
  { ds := "bytes:/fail.pdf", is_ocr := false, output_image_dir := "output/j2/images",
    output_abs_dir := "/cwd/output/j2/images", pdf_file_name := "fail.pdf",
    start_time := 0, pages := [], page_count := 3 }

/-- State after starting job `j1` under the engine whose memory cleanup raises. -/
def sCF : SysState := (process_pdf_start cleanFailEngine "/docs/x.pdf" "j1" s0).2

theorem lookupJob_insertJob_self (l : List (String × JobData)) (k : String) (v : JobData) :
    lookupJob (insertJob l k v) k = some v := by
  induction l with
  | nil => simp [insertJob, lookupJob]
  | cons hd tl ih =>
    obtain ⟨k1, v1⟩ := hd
    by_cases h : k1 = k
    · simp [insertJob, h, lookupJob]
    · simp [insertJob, h, lookupJob, ih]

theorem lookupJob_insertJob_ne (l : List (String × JobData)) {k k2 : String} (v : JobData)
    (h : ¬ k = k2) : lookupJob (insertJob l k v) k2 = lookupJob l k2 := by
  induction l with
  | nil => simp [insertJob, lookupJob, h]
  | cons hd tl ih =>
    obtain ⟨k1, v1⟩ := hd
    by_cases h1 : k1 = k
    · subst h1; simp [insertJob, lookupJob, h]
    · simp [insertJob, lookupJob, h1, ih]

theorem lookupJob_insertJob_cases {l : List (String × JobData)} {k k2 : String}
    {v w : JobData} (h : lookupJob (insertJob l k v) k2 = some w) :
    (k = k2 ∧ w = v) ∨ lookupJob l k2 = some w := by
  by_cases hk : k = k2
  · subst hk
    rw [lookupJob_insertJob_self] at h
    refine Or.inl ⟨rfl, ?_⟩
    injection h with h2
    exact h2.symm
  · rw [lookupJob_insertJob_ne l v hk] at h
    exact Or.inr h

theorem eraseJob_cons_of_eq {k1 k : String} (v1 : JobData) (tl : List (String × JobData))
    (h : k1 = k) : eraseJob ((k1, v1) :: tl) k = eraseJob tl k := by
  simp [eraseJob, List.filter_cons, h]

theorem eraseJob_cons_of_ne {k1 k : String} (v1 : JobData) (tl : List (String × JobData))
    (h : ¬ k1 = k) : eraseJob ((k1, v1) :: tl) k = (k1, v1) :: eraseJob tl k := by
  simp [eraseJob, List.filter_cons, h]

theorem lookupJob_eraseJob_self (l : List (String × JobData)) (k : String) :
    lookupJob (eraseJob l k) k = none := by
  induction l with
  | nil => rfl
  | cons hd tl ih =>
    obtain ⟨k1, v1⟩ := hd
    by_cases h : k1 = k
    · rw [eraseJob_cons_of_eq v1 tl h]
      exact ih
    · rw [eraseJob_cons_of_ne v1 tl h]
      simpa [lookupJob, h] using ih

theorem lookupJob_eraseJob_of_some {l : List (String × JobData)} {k k2 : String}
    {w : JobData} (h : lookupJob (eraseJob l k) k2 = some w) :
    lookupJob l k2 = some w := by
  induction l with
  | nil => exact h
  | cons hd tl ih =>
    obtain ⟨k1, v1⟩ := hd
    by_cases hk : k1 = k
    · rw [eraseJob_cons_of_eq v1 tl hk] at h
      have h2 : ¬ k1 = k2 := by
        intro he
        rw [← he, hk] at h
        rw [lookupJob_eraseJob_self] at h
        exact Option.noConfusion h
      simpa [lookupJob, h2] using ih h
    · rw [eraseJob_cons_of_ne v1 tl hk] at h
      by_cases h2 : k1 = k2
      · simp only [lookupJob, if_pos h2] at h ⊢
        exact h
      · simp only [lookupJob, if_neg h2] at h ⊢
        exact ih h

theorem find?_append_of_none {α : Type} (f : α → Bool) {l1 : List α} (l2 : List α)
    (h : l1.find? f = none) : (l1 ++ l2).find? f = l2.find? f := by
  induction l1 with
  | nil => rfl
  | cons a t ih =>
    cases hfa : f a with
    | true =>
      rw [List.find?_cons_of_pos _ hfa] at h
      exact Option.noConfusion h
    | false =>
      have hfa2 : ¬ f a = true := by simp [hfa]
      rw [List.find?_cons_of_neg _ hfa2] at h
      rw [List.cons_append, List.find?_cons_of_neg _ hfa2]
      exact ih h

/-- Claim C1: for a registered job and an uncached page, once a first
`process_pdf_with` call for `(job_id, page)` succeeds with page dict `p`, a
second call for the same pair returns the identical cached dict `p`
(bit-identical content, same imgDir and processingTime) with the state
unchanged, and the engine was invoked exactly once for the pair: the first
call added one invocation and the second call adds none. -/
theorem requestPage_cached_idempotent (eng : Engine) (fp jid : String) (page : Int)
    (s s1 : SysState) (jd : JobData) (p : PageData)
    (hjd : lookupJob s.processing_results jid = some jd)
    (hmiss : jd.pages.find? (fun pp => pp.pageIndex == page) = none)
    (hfirst : process_pdf_with eng fp jid page s = (.ok (.ok p), s1)) :
    process_pdf_with eng fp jid page s1 = (.ok (.ok p), s1) ∧
      s1.engineCalls = s.engineCalls + 1 := by
  unfold process_pdf_with at hfirst
  split at hfirst
  · exact absurd hfirst (by simp)
  · rename_i job_data heq
    rw [hjd] at heq
    have hj : job_data = jd := (Option.some.inj heq).symm
    subst hj
    split at hfirst
    · exact absurd hfirst (by simp)
    · rename_i hrange
      split at hfirst
      · rename_i cached hcach
        rw [hmiss] at hcach
        exact Option.noConfusion hcach
      · rename_i hnone
        simp only [] at hfirst
        split at hfirst
        · exact absurd hfirst (by simp)
        · rename_i content hok
          rw [Prod.mk.injEq] at hfirst
          obtain ⟨h1, h2⟩ := hfirst
          have hp := (PageResp.ok.inj (Except.ok.inj h1))
          subst hp
          subst h2
          refine ⟨?_, rfl⟩
          unfold process_pdf_with
          simp only [lookupJob_insertJob_self]
          rw [if_neg hrange]
          rw [find?_append_of_none _ _ hmiss]
          simp [List.find?]

/-- Witness for claim C1: in the concrete run, requesting page 0 of `j1` a
second time returns the cached dict unchanged without touching the state, and
the engine ran exactly once for the pair. -/
theorem requestPage_cached_idempotent_witness :
    process_pdf_with testEngine "/docs/x.pdf" "j1" 0 sPage0 = (.ok (.ok p0), sPage0) ∧
      sPage0.engineCalls = sStart.engineCalls + 1 :=
  requestPage_cached_idempotent testEngine "/docs/x.pdf" "j1" 0 sStart sPage0 jd1 p0
    (by decide) (by decide) (by decide)

/-- Claim C10: `process_pdf_with` and `process_pdf_final_result` never consult
their `pdf_file_path` argument: two calls identical except for the supplied
path return the same value and make the same state change. -/
theorem file_path_argument_ignored (eng : Engine) (fp1 fp2 jid : String) (page : Int)
    (s : SysState) :
    process_pdf_with eng fp1 jid page s = process_pdf_with eng fp2 jid page s ∧
      process_pdf_final_result eng fp1 jid s = process_pdf_final_result eng fp2 jid s :=
  ⟨rfl, rfl⟩

theorem lookupJob_after_with {eng : Engine} {fp jid : String} {page : Int} {s : SysState}
    {jid2 : String} {jd jd2 : JobData}
    (hbefore : lookupJob s.processing_results jid2 = some jd)
    (hafter : lookupJob (process_pdf_with eng fp jid page s).2.processing_results jid2
      = some jd2) :
    jd2.page_count = jd.page_count ∧ jd2.is_ocr = jd.is_ocr ∧ jd2.ds = jd.ds := by
  unfold process_pdf_with at hafter
  split at hafter
  · rw [hbefore] at hafter
    cases Option.some.inj hafter
    exact ⟨rfl, rfl, rfl⟩
  · rename_i job_data heq
    split at hafter
    · rw [hbefore] at hafter
      cases Option.some.inj hafter
      exact ⟨rfl, rfl, rfl⟩
    · split at hafter
      · rw [hbefore] at hafter
        cases Option.some.inj hafter
        exact ⟨rfl, rfl, rfl⟩
      · simp only [] at hafter
        split at hafter
        · rw [hbefore] at hafter
          cases Option.some.inj hafter
          exact ⟨rfl, rfl, rfl⟩
        · simp only [] at hafter
          rcases lookupJob_insertJob_cases hafter with ⟨hk, hv⟩ | hrest
          · subst hk
            rw [hbefore] at heq
            cases Option.some.inj heq
            subst hv
            exact ⟨rfl, rfl, rfl⟩
          · rw [hbefore] at hrest
            cases Option.some.inj hrest
            exact ⟨rfl, rfl, rfl⟩

theorem lookupJob_after_final {eng : Engine} {fp jid : String} {s : SysState}
    {jid2 : String} {jd2 : JobData}
    (hafter : lookupJob (process_pdf_final_result eng fp jid s).2.processing_results jid2
      = some jd2) :
    lookupJob s.processing_results jid2 = some jd2 := by
  unfold process_pdf_final_result at hafter
  split at hafter
  · exact hafter
  · split at hafter
    · exact hafter
    · simp only [] at hafter
      split at hafter
      · exact lookupJob_eraseJob_of_some hafter
      · exact lookupJob_eraseJob_of_some hafter

/-- Claim C6: for a registered job, `process_pdf_with` answers any page index
outside `[0, page_count)` with the range error and the state literally
unchanged (so no cache entry, no engine invocation, no mutation at all); and
neither `process_pdf_with` nor `process_pdf_final_result` ever changes the
`page_count` recorded for any job that remains registered. -/
theorem range_enforcement (eng : Engine) (fp jid : String) (page : Int) (s : SysState) :
    (∀ jd, lookupJob s.processing_results jid = some jd →
      (page < 0 ∨ (jd.page_count : Int) ≤ page) →
      process_pdf_with eng fp jid page s = (.ok (.rangeError jd.page_count), s)) ∧
    (∀ jid2 jd jd2, lookupJob s.processing_results jid2 = some jd →
      lookupJob (process_pdf_with eng fp jid page s).2.processing_results jid2 = some jd2 →
      jd2.page_count = jd.page_count) ∧
    (∀ jid2 jd jd2, lookupJob s.processing_results jid2 = some jd →
      lookupJob (process_pdf_final_result eng fp jid s).2.processing_results jid2 = some jd2 →
      jd2.page_count = jd.page_count) := by
  refine ⟨?_, ?_, ?_⟩
  · intro jd hjd hrange
    unfold process_pdf_with
    simp only [hjd]
    rw [if_pos hrange]
  · intro jid2 jd jd2 h1 h2
    exact (lookupJob_after_with h1 h2).1
  · intro jid2 jd jd2 h1 h2
    have h3 := lookupJob_after_final h2
    rw [h1] at h3
    cases Option.some.inj h3
    rfl

/-- Witness for claim C6: requesting page 5 of the three-page job `j1`
returns the range error and leaves the state untouched. -/
theorem range_enforcement_witness :
    process_pdf_with testEngine "/docs/x.pdf" "j1" 5 sStart =
      (.ok (.rangeError 3), sStart) :=
  (range_enforcement testEngine "/docs/x.pdf" "j1" 5 sStart).1 jd1 (by decide) (by decide)

/-- Claim C9: the `is_ocr` mode recorded at Start is never modified by any
subsequent `process_pdf_with` or `process_pdf_final_result` call, and a page
served by `process_pdf_with` is either a cache hit or was computed by the
engine with exactly the job's stored mode. -/
theorem mode_immutability (eng : Engine) (fp jid : String) (page : Int) (s : SysState) :
    (∀ jid2 jd jd2, lookupJob s.processing_results jid2 = some jd →
      lookupJob (process_pdf_with eng fp jid page s).2.processing_results jid2 = some jd2 →
      jd2.is_ocr = jd.is_ocr) ∧
    (∀ jid2 jd jd2, lookupJob s.processing_results jid2 = some jd →
      lookupJob (process_pdf_final_result eng fp jid s).2.processing_results jid2 = some jd2 →
      jd2.is_ocr = jd.is_ocr) ∧
    (∀ jd p s1, lookupJob s.processing_results jid = some jd →
      process_pdf_with eng fp jid page s = (.ok (.ok p), s1) →
      p ∈ jd.pages ∨ eng.analyze jd.ds page jd.is_ocr = .ok p.content) := by
  refine ⟨?_, ?_, ?_⟩
  · intro jid2 jd jd2 h1 h2
    exact (lookupJob_after_with h1 h2).2.1
  · intro jid2 jd jd2 h1 h2
    have h3 := lookupJob_after_final h2
    rw [h1] at h3
    cases Option.some.inj h3
    rfl
  · intro jd p s1 hjd hcall
    unfold process_pdf_with at hcall
    split at hcall
    · exact absurd hcall (by simp)
    · rename_i job_data heq
      rw [hjd] at heq
      have hj : job_data = jd := (Option.some.inj heq).symm
      subst hj
      split at hcall
      · exact absurd hcall (by simp)
      · split at hcall
        · rename_i cached hcach
          rw [Prod.mk.injEq] at hcall
          obtain ⟨h1, h2⟩ := hcall
          have hp := (PageResp.ok.inj (Except.ok.inj h1))
          subst hp
          exact Or.inl (List.mem_of_find?_eq_some hcach)
        · rename_i hnone
          simp only [] at hcall
          split at hcall
          · exact absurd hcall (by simp)
          · rename_i content hok
            rw [Prod.mk.injEq] at hcall
            obtain ⟨h1, h2⟩ := hcall
            have hp := (PageResp.ok.inj (Except.ok.inj h1))
            subst hp
            exact Or.inr hok

/-- Witness for claim C9: in the concrete run, the page dict returned for
page 0 of `j1` was computed by the engine with the mode stored at Start. -/
theorem mode_immutability_witness :
    p0 ∈ jd1.pages ∨ testEngine.analyze jd1.ds 0 jd1.is_ocr = .ok p0.content :=
  (mode_immutability testEngine "/docs/x.pdf" "j1" 0 sStart).2.2 jd1 p0 sPage0
    (by decide) (by decide)

/-- Claim C7: completing a registered job returns a report whose `pages`
field is exactly the job's cached list — the pages actually computed, in the
order they were appended (completion order, not pageIndex order) — and the
call performs no engine page computation (the invocation count is unchanged). -/
theorem complete_partial_coverage (eng : Engine) (fp jid : String) (s : SysState)
    (jd : JobData) (hjd : lookupJob s.processing_results jid = some jd)
    (hclean : eng.cleanMemory = .ok ()) :
    (process_pdf_final_result eng fp jid s).1 =
      .ok (.ok { status := "success", processing_time := s.clock - jd.start_time,
                 pdf_name := jd.pdf_file_name, pages := jd.pages }) ∧
    (process_pdf_final_result eng fp jid s).2.engineCalls = s.engineCalls := by
  unfold process_pdf_final_result
  simp only [hjd, hclean]
  refine ⟨by trivial, ?_⟩
  split
  · rfl
  · rfl

/-- Witness for claim C7: completing `j1` after only page 0 of 3 was
requested returns exactly the one cached page dict, and no engine call. -/
theorem complete_partial_coverage_witness :
    (process_pdf_final_result testEngine "/docs/x.pdf" "j1" sPage0).1 =
      .ok (.ok { status := "success",
                 processing_time := sPage0.clock - jd1p.start_time,
                 pdf_name := jd1p.pdf_file_name, pages := jd1p.pages }) ∧
    (process_pdf_final_result testEngine "/docs/x.pdf" "j1" sPage0).2.engineCalls
      = sPage0.engineCalls :=
  complete_partial_coverage testEngine "/docs/x.pdf" "j1" sPage0 jd1p
    (by decide) (by decide)

/-- Claim C4: once `process_pdf_final_result` succeeds for a job, the job id
is absent from the store, its `output/{job_id}` directory tree no longer
exists, and every subsequent page request or second completion for that id
answers the job-not-found error. -/
theorem complete_lifecycle_closure (eng : Engine) (fp jid : String) (s s1 : SysState)
    (r : FinalOk) (hdone : process_pdf_final_result eng fp jid s = (.ok (.ok r), s1)) :
    lookupJob s1.processing_results jid = none ∧
    joinPath "output" jid ∉ s1.dirs ∧
    (∀ fp2 page, (process_pdf_with eng fp2 jid page s1).1 = .ok .jobNotFound) ∧
    (∀ fp3, (process_pdf_final_result eng fp3 jid s1).1 = .ok .jobNotFound) := by
  unfold process_pdf_final_result at hdone
  split at hdone
  · exact absurd hdone (by simp)
  · rename_i jd heq
    split at hdone
    · exact absurd hdone (by simp)
    · simp only [] at hdone
      rw [Prod.mk.injEq] at hdone
      obtain ⟨h1, h2⟩ := hdone
      have hnone : lookupJob s1.processing_results jid = none := by
        rw [← h2]
        split
        · exact lookupJob_eraseJob_self _ _
        · exact lookupJob_eraseJob_self _ _
      have hdir : joinPath "output" jid ∉ s1.dirs := by
        rw [← h2]
        split
        · simp [List.mem_filter]
        · rename_i hnotin
          exact hnotin
      refine ⟨hnone, hdir, ?_, ?_⟩
      · intro fp2 page
        unfold process_pdf_with
        simp only [hnone]
      · intro fp3
        unfold process_pdf_final_result
        simp only [hnone]

/-- Witness for claim C4: after completing `j1`, the store no longer resolves
`j1`, its output tree is gone, and both follow-up operations report
job-not-found. -/
theorem complete_lifecycle_closure_witness :
    lookupJob sDone.processing_results "j1" = none ∧
    joinPath "output" "j1" ∉ sDone.dirs ∧
    (process_pdf_with testEngine "/docs/x.pdf" "j1" 0 sDone).1 = .ok .jobNotFound ∧
    (process_pdf_final_result testEngine "/docs/x.pdf" "j1" sDone).1 = .ok .jobNotFound := by
  have h := complete_lifecycle_closure testEngine "/docs/x.pdf" "j1" sPage0 sDone
    { status := "success", processing_time := 1, pdf_name := "x.pdf", pages := [p0] }
    (by decide)
  exact ⟨h.1, h.2.1, h.2.2.1 "/docs/x.pdf" 0, h.2.2.2 "/docs/x.pdf"⟩

/-- Claim C5: if the engine's analysis of an uncached in-range page raises,
`process_pdf_with` propagates the error, the job store is untouched (the job
stays registered with its cache unchanged, so the failing page is not
cached), and a retry of the same page reaches the engine again (the
invocation counter advances once per attempt). -/
theorem engine_failure_leaves_job_retryable (eng : Engine) (fp jid : String) (page : Int)
    (s : SysState) (jd : JobData) (e : String)
    (hjd : lookupJob s.processing_results jid = some jd)
    (hrange : ¬ (page < 0 ∨ (jd.page_count : Int) ≤ page))
    (hmiss : jd.pages.find? (fun pp => pp.pageIndex == page) = none)
    (hfail : eng.analyze jd.ds page jd.is_ocr = .error e) :
    process_pdf_with eng fp jid page s =
      (.error e, { s with clock := s.clock + 1, engineCalls := s.engineCalls + 1 }) ∧
    (process_pdf_with eng fp jid page s).2.processing_results = s.processing_results ∧
    (process_pdf_with eng fp jid page
      (process_pdf_with eng fp jid page s).2).2.engineCalls = s.engineCalls + 2 := by
  have h1 : process_pdf_with eng fp jid page s =
      (.error e, { s with clock := s.clock + 1, engineCalls := s.engineCalls + 1 }) := by
    unfold process_pdf_with
    simp only [hjd]
    rw [if_neg hrange]
    simp only [hmiss, hfail]
  refine ⟨h1, ?_, ?_⟩
  · rw [h1]
  · rw [h1]
    unfold process_pdf_with
    simp only [hjd]
    rw [if_neg hrange]
    simp only [hmiss, hfail]

/-- Witness for claim C5: page 1 of job `j2` (whose document fails analysis)
propagates the engine error, leaves the job store unchanged, and a retry
reaches the engine a second time. -/
theorem engine_failure_leaves_job_retryable_witness :
    process_pdf_with testEngine "/fail.pdf" "j2" 1 sF =
      (.error "engine failure",
        { sF with clock := sF.clock + 1, engineCalls := sF.engineCalls + 1 }) ∧
    (process_pdf_with testEngine "/fail.pdf" "j2" 1 sF).2.processing_results
      = sF.processing_results ∧
    (process_pdf_with testEngine "/fail.pdf" "j2" 1
      (process_pdf_with testEngine "/fail.pdf" "j2" 1 sF).2).2.engineCalls
      = sF.engineCalls + 2 :=
  engine_failure_leaves_job_retryable testEngine "/fail.pdf" "j2" 1 sF jdF "engine failure"
    (by decide) (by decide) (by decide) (by decide)

/-- Counterexample to claim C2 as stated: with job `j1` registered (and page 0
already cached), a second `process_pdf_start` call for the same job id does
not fail — it returns the success payload — and it replaces the existing
job's state (the cached pages are discarded and the start time reset). -/
theorem duplicate_start_counterexample :
    lookupJob sPage0.processing_results "j1" = some jd1p ∧
    (process_pdf_start testEngine "/docs/x.pdf" "j1" sPage0).1 =
      .ok { status := "success", pageCount := 3, pdfName := "x.pdf" } ∧
    lookupJob (process_pdf_start testEngine "/docs/x.pdf" "j1" sPage0).2.processing_results
      "j1" = some { jd1 with start_time := 1 } ∧
    some { jd1 with start_time := 1 } ≠ some jd1p := by
  exact ⟨by decide, by decide, by decide, by decide⟩

/-- Claim C2 as amended: a second Start for an already-registered job id does
not fail with an already-exists error; it succeeds and overwrites the job's
record with a freshly initialised one (re-read document, re-run
classification, empty page cache, new start time). -/
theorem duplicate_start_overwrites (eng : Engine) (fp jid : String) (s : SysState)
    (jd : JobData) (b : String)
    (hreg : lookupJob s.processing_results jid = some jd)
    (hread : eng.read fp = .ok b) :
    (process_pdf_start eng fp jid s).1 =
      .ok { status := "success", pageCount := eng.pageCountOf b, pdfName := basename fp } ∧
    lookupJob (process_pdf_start eng fp jid s).2.processing_results jid =
      some { ds := b, is_ocr := eng.classifyOcr b,
             output_image_dir := joinPath (joinPath "output" jid) "images",
             output_abs_dir := abspath (joinPath (joinPath "output" jid) "images"),
             pdf_file_name := basename fp, start_time := s.clock, pages := [],
             page_count := eng.pageCountOf b } := by
  unfold process_pdf_start
  simp only [hread]
  constructor
  · trivial
  · split
    · exact lookupJob_insertJob_self _ _ _
    · exact lookupJob_insertJob_self _ _ _

/-- Witness for the amended claim C2: restarting `j1` while it is registered
with a cached page succeeds and re-registers a fresh record. -/
theorem duplicate_start_overwrites_witness :
    (process_pdf_start testEngine "/docs/x.pdf" "j1" sPage0).1 =
      .ok { status := "success", pageCount := testEngine.pageCountOf "bytes:/docs/x.pdf",
            pdfName := basename "/docs/x.pdf" } ∧
    lookupJob (process_pdf_start testEngine "/docs/x.pdf" "j1" sPage0).2.processing_results
      "j1" =
      some { ds := "bytes:/docs/x.pdf", is_ocr := testEngine.classifyOcr "bytes:/docs/x.pdf",
             output_image_dir := joinPath (joinPath "output" "j1") "images",
             output_abs_dir := abspath (joinPath (joinPath "output" "j1") "images"),
             pdf_file_name := basename "/docs/x.pdf", start_time := sPage0.clock, pages := [],
             page_count := testEngine.pageCountOf "bytes:/docs/x.pdf" } :=
  duplicate_start_overwrites testEngine "/docs/x.pdf" "j1" sPage0 jd1p "bytes:/docs/x.pdf"
    (by decide) (by decide)

/-- Counterexample to claim C3 as stated: with job `j1` registered under the
engine whose memory-release step raises, `process_pdf_final_result` finds the
job and then fails — and the cleanup does NOT execute: the job is still
registered and the `output/j1` directory still exists afterwards. -/
theorem complete_cleanup_not_guaranteed_counterexample :
    (process_pdf_final_result cleanFailEngine "/docs/x.pdf" "j1" sCF).1 =
      .error "device cleanup failed" ∧
    lookupJob (process_pdf_final_result cleanFailEngine "/docs/x.pdf" "j1" sCF).2.processing_results "j1" = some jd1 ∧
    joinPath "output" "j1" ∈ (process_pdf_final_result cleanFailEngine "/docs/x.pdf" "j1" sCF).2.dirs := by
  exact ⟨by decide, by decide, by decide⟩

/-- Claim C3 as amended: `process_pdf_final_result` has no guaranteed-release
pattern; it is straight-line sequencing.  If a step after the job is found
(the engine memory release) raises, the exception propagates with the state
completely unchanged: the job stays in the store, its cache is kept, and the
output directory is not deleted.  Cleanup runs only on the all-success path. -/
theorem complete_raise_skips_cleanup (eng : Engine) (fp jid : String) (s : SysState)
    (jd : JobData) (e : String)
    (hjd : lookupJob s.processing_results jid = some jd)
    (hclean : eng.cleanMemory = .error e) :
    process_pdf_final_result eng fp jid s = (.error e, s) := by
  unfold process_pdf_final_result
  simp only [hjd, hclean]

/-- Witness for the amended claim C3: completing `j1` under the
cleanup-raising engine propagates the error and leaves the state untouched. -/
theorem complete_raise_skips_cleanup_witness :
    process_pdf_final_result cleanFailEngine "/docs/x.pdf" "j1" sCF =
      (.error "device cleanup failed", sCF) :=
  complete_raise_skips_cleanup cleanFailEngine "/docs/x.pdf" "j1" sCF jd1
    "device cleanup failed" (by decide) (by decide)

/-- Counterexample to claim C8 as stated: a request to /process-pdf-start
that is missing the required `jobId` field is not rejected with a 400
missing-field error — the handler proceeds, the `None` job id blows up inside
path joining, and the failure surfaces as a 500. -/
theorem start_missing_jobid_counterexample :
    (handle_pdf_start testEngine
      { fileAbsolutePath := some "/docs/x.pdf", jobId := none } s0).1
      = .failure 500 "TypeError" ∧
    ((handle_pdf_start testEngine
      { fileAbsolutePath := some "/docs/x.pdf", jobId := none } s0).1).code ≠ 400 := by
  exact ⟨by decide, by decide⟩

/-- Claim C8 as amended: the start endpoint rejects a missing (or empty)
`fileAbsolutePath` with the 400 missing-field error, but performs no presence
check on `jobId` — a request with `jobId` absent proceeds and fails with a
500 (TypeError) — and engine/IO failures such as an unreadable source are
reported as 500. -/
theorem start_endpoint_error_codes (eng : Engine) (s : SysState) :
    (∀ j, handle_pdf_start eng { fileAbsolutePath := none, jobId := j } s
        = (.failure 400 "未提供檔案路徑", s)) ∧
    (∀ j, handle_pdf_start eng { fileAbsolutePath := some "", jobId := j } s
        = (.failure 400 "未提供檔案路徑", s)) ∧
    (∀ fp, ¬ fp = "" → handle_pdf_start eng { fileAbsolutePath := some fp, jobId := none } s
        = (.failure 500 "TypeError", s)) ∧
    (∀ fp jid e, ¬ fp = "" → eng.read fp = .error e →
      (handle_pdf_start eng { fileAbsolutePath := some fp, jobId := some jid } s).1
        = .failure 500 e) := by
  refine ⟨fun j => rfl, fun j => ?_, fun fp h => ?_, fun fp jid e h hread => ?_⟩
  · simp [handle_pdf_start]
  · simp only [handle_pdf_start]
    rw [if_neg h]
  · simp only [handle_pdf_start]
    rw [if_neg h]
    unfold process_pdf_start
    simp [hread]

/-- Witness for the amended claim C8: an unreadable source path with both
fields present yields a 500 carrying the read error. -/
theorem start_endpoint_error_codes_witness :
    (handle_pdf_start testEngine
      { fileAbsolutePath := some "/bad.pdf", jobId := some "j9" } s0).1
      = .failure 500 "read failed" :=
  (start_endpoint_error_codes testEngine s0).2.2.2 "/bad.pdf" "j9" "read failed"
    (by decide) (by decide)
